import Mathlib

/-!
# FaceScanQR: the scan view of `src/components/FaceScanQR.jsx`

A shallow embedding of the React component `FaceScanQR`: its five state
cells, the `scanFace` handler with the continuation that runs when the
recognition request settles, the `printSlip` template, and the guards of
the JSX (`disabled=...` on the scan button, `qrImage && user && ...` on the
result card).
-/

namespace FaceScan

/-! ## JavaScript values -/

/-- JavaScript values as they reach the component from a decoded JSON body
or from an error object. An array is the list of its elements, a plain
object the association list of its own properties (the first binding of a
key is its value). Numbers are JSON integers in the range that
`Number::toString` prints as plain decimal digits. -/
inductive JsVal where
  | undefined : JsVal
  | null : JsVal
  | bool (b : Bool) : JsVal
  | num (n : Int) : JsVal
  | str (s : String) : JsVal
  | arr (elems : List JsVal) : JsVal
  | obj (fields : List (String × JsVal)) : JsVal

/-- An Error object (an `AxiosError`, or the engine's `TypeError`), as the
association list of its properties. A thrown value is never `null` or
`undefined` here: axios rejects with an error object and so does a failed
property read. -/
abbrev JsErr := List (String × JsVal)

namespace JsVal

/-- ToBoolean: `undefined`, `null`, `false`, `0` and `""` are falsy. -/
def truthy : JsVal → Bool
  | undefined => false
  | null => false
  | bool b => b
  | num n => n != 0
  | str s => s != ""
  | arr _ => true
  | obj _ => true

/-- The values on which a property read throws: `null` and `undefined`. -/
def nullish : JsVal → Bool
  | undefined => true
  | null => true
  | _ => false

/-- The values that are not objects: `undefined`, `null`, booleans, numbers
and strings. -/
def primitive : JsVal → Bool
  | arr _ => false
  | obj _ => false
  | _ => true

/-- The operator `a || b`. -/
def or (a b : JsVal) : JsVal := if a.truthy then a else b

/-- The `TypeError` of a failed conversion of an object to a primitive. -/
def convertError : JsErr :=
  [("name", str "TypeError"), ("message", str "Cannot convert object to primitive value")]

/-- Whether an association list binds the key. -/
def hasOwn (fields : List (String × JsVal)) (key : String) : Bool :=
  fields.any (fun p => p.1 == key)

mutual
/-- ToString, as a template literal applies it to `${...}`. An array is
joined with commas, `null` and `undefined` elements counting as empty. A
plain object prints as `[object Object]` through the inherited `toString`;
with an own property `toString`, which in a decoded JSON value is never a
function, neither it nor `valueOf` yields a primitive and the conversion
throws. -/
def toJsString : JsVal → Except JsErr String
  | undefined => .ok "undefined"
  | null => .ok "null"
  | bool true => .ok "true"
  | bool false => .ok "false"
  | num n => .ok (toString n)
  | str s => .ok s
  | arr elems =>
    match stringsOf elems with
    | .error e => .error e
    | .ok parts => .ok (",".intercalate parts)
  | obj fields =>
    if hasOwn fields "toString" then .error convertError else .ok "[object Object]"
/-- The strings `Array.prototype.join` puts between the commas. -/
def stringsOf : List JsVal → Except JsErr (List String)
  | [] => .ok []
  | x :: rest =>
    match (if x.nullish then .ok "" else toJsString x) with
    | .error e => .error e
    | .ok a =>
      match stringsOf rest with
      | .error e => .error e
      | .ok b => .ok (a :: b)
end

/-- The error React throws on a plain object among the children of an
element ("Objects are not valid as a React child"). -/
def childError : JsErr :=
  [("name", str "Error"), ("message", str "Objects are not valid as a React child")]

mutual
/-- The text React renders for a value placed among the children of an
element (`{status}`, `{user.name}`): nothing for `undefined`, `null` and
booleans, the digits of a number, a string as it is, the elements of an
array one after the other; a plain object makes the render throw. -/
def childText : JsVal → Except JsErr String
  | undefined => .ok ""
  | null => .ok ""
  | bool _ => .ok ""
  | num n => .ok (toString n)
  | str s => .ok s
  | arr elems =>
    match childTexts elems with
    | .error e => .error e
    | .ok parts => .ok (String.join parts)
  | obj _ => .error childError
/-- The texts of the elements of an array of children. -/
def childTexts : List JsVal → Except JsErr (List String)
  | [] => .ok []
  | x :: rest =>
    match childText x with
    | .error e => .error e
    | .ok a =>
      match childTexts rest with
      | .error e => .error e
      | .ok b => .ok (a :: b)
end

/-- The value React DOM gives a string attribute such as `src`: the
attribute is left out for `undefined`, `null` and booleans, and is the
ToString of anything else. -/
def attrText : JsVal → Except JsErr (Option String)
  | undefined => .ok none
  | null => .ok none
  | bool _ => .ok none
  | v =>
    match toJsString v with
    | .error e => .error e
    | .ok s => .ok (some s)

end JsVal

open JsVal

/-- Own-property lookup in an object's association list; an absent property
reads as `undefined`. -/
def lookupProp : List (String × JsVal) → String → JsVal
  | [], _ => undefined
  | (k, v) :: rest, key => if k = key then v else lookupProp rest key

/-- The `TypeError` the engine throws on `undefined.x` / `null.x`. It has a
`message` of its own and no `response` property. -/
def typeError (key : String) : JsErr :=
  [("name", str "TypeError"),
   ("message", str ("Cannot read properties of undefined (reading " ++ key ++ ")"))]

/-- The member access `v.key` for the property names this component reads
(`data`, `success`, `message`, `qr_image`, `user`, `name`, `mobile`, `role`,
`response`), none of which a primitive wrapper or `Object.prototype`
defines: it throws on `null` and `undefined`, reads `undefined` from a
boolean, number, string or array, and looks the key up in a plain object. -/
def getProp (v : JsVal) (key : String) : Except JsErr JsVal :=
  match v with
  | undefined => .error (typeError key)
  | null => .error (typeError key)
  | obj fields => .ok (lookupProp fields key)
  | _ => .ok undefined

/-- The optional member access `v?.key`: `undefined` when `v` is `null` or
`undefined`, the property otherwise. -/
def optProp (v : JsVal) (key : String) : JsVal :=
  match v with
  | undefined => undefined
  | null => undefined
  | obj fields => lookupProp fields key
  | _ => undefined

/-! ## The view's state -/

/-- The five `useState` cells of `FaceScanQR` (lines 11-15). -/
structure View where
  status : JsVal
  loading : Bool
  qrImage : JsVal
  user : JsVal
  cameraReady : Bool

/-- The initial values passed to `useState`. -/
def View.init : View :=
  { status := str "Ready to scan", loading := false, qrImage := null,
    user := null, cameraReady := false }

/-- What the component does to the outside world. -/
inductive Effect where
  /-- The call `canvas.toBlob(callback, "image/jpeg")`, line 56. -/
  | capture : Effect
  /-- The call `axios.post(API_URL, formData, ...)`, line 61. -/
  | post : Effect
  /-- The call `setTimeout(() => printSlip(qrImg, userData), 500)`, line 74. -/
  | printTimer (qrImg userData : JsVal) : Effect
  /-- The call `window.open("", "", "width=300,height=600")`, line 89. -/
  | openWindow : Effect
  /-- The call `printWindow.document.write(printContent)`, line 203. -/
  | write (doc : String) : Effect

/-- How the promise of `axios.post` settles: it resolves with a response
whose `data` is the decoded body, or rejects with an error object. -/
inductive Outcome where
  | resolved (data : JsVal) : Outcome
  | rejected (err : JsErr) : Outcome

/-- The status literal of line 71. -/
def successMsg : JsVal := str "✅ QR Generated Successfully"

/-- The fallback literal of line 78. -/
def failedMsg : JsVal := str "❌ Failed to generate QR"

/-- The fallback literal of line 81. -/
def notRecognizedMsg : JsVal := str "❌ Face not recognized"

/-- The status literal of line 43. -/
def scanningMsg : JsVal := str "🔍 Scanning face..."

/-- The status literal of line 32. -/
def cameraDeniedMsg : JsVal := str "❌ Camera access denied"

/-- Lines 42-56 of `scanFace`: the four setters, then the frame is drawn and
`toBlob` is asked for the JPEG. -/
def scanFace (v : View) : View × List Effect :=
  ({ v with loading := true, status := scanningMsg, qrImage := null, user := null },
   [Effect.capture])

/-- The body of the `try` block after the `await` (lines 65-79), on the
response body `res.data`. Every property read that can throw comes before
the setters of its branch, so a throw leaves the view as it was. -/
def tryBody (v : View) (data : JsVal) : Except JsErr (View × List Effect) :=
  match getProp data "success" with
  | .error e => .error e
  | .ok success =>
    if success.truthy then
      match getProp data "data" with
      | .error e => .error e
      | .ok d =>
        match getProp d "qr_image" with
        | .error e => .error e
        | .ok qrImg =>
          match getProp d "user" with
          | .error e => .error e
          | .ok userData =>
            .ok ({ v with qrImage := qrImg, user := userData, status := successMsg },
                 [Effect.printTimer qrImg userData])
    else
      match getProp data "message" with
      | .error e => .error e
      | .ok m => .ok ({ v with status := JsVal.or m failedMsg }, [])

/-- The `catch (err)` clause, line 81:
`setStatus(err.response?.data?.message || "❌ Face not recognized")`. -/
def catchBody (v : View) (err : JsErr) : View × List Effect :=
  let message := optProp (optProp (lookupProp err "response") "data") "message"
  ({ v with status := JsVal.or message notRecognizedMsg }, [])

/-- Lines 60-84: what runs once the request has settled. A rejection enters
the `catch` clause directly, a resolution runs the `try` body and enters the
`catch` clause with whatever it throws; `setLoading(false)` follows either
way. -/
def settle (v : View) (o : Outcome) : View × List Effect :=
  let r : View × List Effect :=
    match o with
    | .rejected err => catchBody v err
    | .resolved data =>
      match tryBody v data with
      | .ok r => r
      | .error e => catchBody v e
  ({ r.1 with loading := false }, r.2)

/-- The `disabled` attribute of the scan button, line 251. -/
def scanDisabled (v : View) : Bool := v.loading || !v.cameraReady

/-- The guard of the result card, line 268: `qrImage && user && (...)`. -/
def panelShown (v : View) : Bool := v.qrImage.truthy && v.user.truthy

/-! ## The printable slip -/

/-- Each line followed by a line feed. -/
def unlines : List String → String
  | [] => ""
  | l :: ls => l ++ "\n" ++ unlines ls

/-- Lines 92-172 of the source: the document head, the style sheet, the header block and the opening of the QR section. -/
def slipHeadLines : List String :=
  ["      <!DOCTYPE html>",
   "      <html>",
   "      <head>",
   "        <title>Food Slip</title>",
   "        <style>",
   "          @media print \x7b",
   "            @page \x7b",
   "              size: 80mm auto;",
   "              margin: 0;",
   "            \x7d",
   "            body \x7b",
   "              margin: 0;",
   "              padding: 0;",
   "            \x7d",
   "          \x7d",
   "          body \x7b",
   "            font-family: \x27Courier New\x27, monospace;",
   "            width: 80mm;",
   "            margin: 0 auto;",
   "            padding: 5mm;",
   "            font-size: 12px;",
   "            line-height: 1.4;",
   "          \x7d",
   "          .header \x7b",
   "            text-align: center;",
   "            border-bottom: 2px dashed #000;",
   "            padding-bottom: 8px;",
   "            margin-bottom: 10px;",
   "          \x7d",
   "          .header h2 \x7b",
   "            margin: 5px 0;",
   "            font-size: 18px;",
   "          \x7d",
   "          .header p \x7b",
   "            margin: 2px 0;",
   "            font-size: 11px;",
   "          \x7d",
   "          .qr-section \x7b",
   "            text-align: center;",
   "            margin: 15px 0;",
   "          \x7d",
   "          .qr-section img \x7b",
   "            width: 150px;",
   "            height: 150px;",
   "            border: 2px solid #000;",
   "          \x7d",
   "          .user-info \x7b",
   "            margin: 10px 0;",
   "            border-top: 2px dashed #000;",
   "            padding-top: 10px;",
   "          \x7d",
   "          .user-info div \x7b",
   "            display: flex;",
   "            justify-content: space-between;",
   "            margin: 5px 0;",
   "            padding: 3px 0;",
   "          \x7d",
   "          .user-info .label \x7b",
   "            font-weight: bold;",
   "          \x7d",
   "          .footer \x7b",
   "            text-align: center;",
   "            margin-top: 15px;",
   "            padding-top: 10px;",
   "            border-top: 2px dashed #000;",
   "            font-size: 10px;",
   "          \x7d",
   "          .timestamp \x7b",
   "            text-align: center;",
   "            font-size: 10px;",
   "            margin-top: 8px;",
   "          \x7d",
   "        </style>",
   "      </head>",
   "      <body>",
   "        <div class=\"header\">",
   "          <h2>🍽️ FOOD SERVICE</h2>",
   "          <p>Meal Token</p>",
   "        </div>",
   "        ",
   "        <div class=\"qr-section\">"]

/-- Lines 174-178: the QR section closes, the identity block opens with the NAME label. -/
def slipNameLines : List String :=
  ["        </div>",
   "        ",
   "        <div class=\"user-info\">",
   "          <div>",
   "            <span class=\"label\">NAME:</span>"]

/-- Lines 180-182: the MOBILE label. -/
def slipMobileLines : List String :=
  ["          </div>",
   "          <div>",
   "            <span class=\"label\">MOBILE:</span>"]

/-- Lines 184-186: the ROLE label. -/
def slipRoleLines : List String :=
  ["          </div>",
   "          <div>",
   "            <span class=\"label\">ROLE:</span>"]

/-- Lines 188-191: the identity block closes and the timestamp block opens. -/
def slipStampLines : List String :=
  ["          </div>",
   "        </div>",
   "        ",
   "        <div class=\"timestamp\">"]

/-- Lines 193-200: the footer and the end of the document. -/
def slipFootLines : List String :=
  ["        </div>",
   "        ",
   "        <div class=\"footer\">",
   "          <p>Please present this slip at the counter</p>",
   "          <p>Thank you!</p>",
   "        </div>",
   "      </body>",
   "      </html>"]

/-- The template literal `printContent` of lines 91-201, with the value of
`new Date().toLocaleString()` at the moment of the call passed as `now`.
The literal starts with the line feed that follows the opening backtick
and ends with the four blanks before the closing one. The substitutions are
evaluated in order: reading `userData.name` throws when `userData` is `null`
or `undefined`, and each ToString can throw. -/
def printContent (qrImg userData : JsVal) (now : String) : Except JsErr String :=
  match toJsString qrImg with
  | .error e => .error e
  | .ok q =>
    match getProp userData "name" with
    | .error e => .error e
    | .ok nameVal =>
      match toJsString nameVal with
      | .error e => .error e
      | .ok name =>
        match getProp userData "mobile" with
        | .error e => .error e
        | .ok mobileVal =>
          match toJsString mobileVal with
          | .error e => .error e
          | .ok mobile =>
            match getProp userData "role" with
            | .error e => .error e
            | .ok roleVal =>
              match toJsString roleVal with
              | .error e => .error e
              | .ok role =>
                .ok ("\n" ++ unlines
                  (slipHeadLines ++
                   ["          <img src=\"" ++ q ++ "\" alt=\"QR Code\" />"] ++
                   slipNameLines ++
                   ["            <span>" ++ name ++ "</span>"] ++
                   slipMobileLines ++
                   ["            <span>" ++ mobile ++ "</span>"] ++
                   slipRoleLines ++
                   ["            <span>" ++ role ++ "</span>"] ++
                   slipStampLines ++
                   ["          Generated: " ++ now] ++
                   slipFootLines) ++ "    ")

/-- The function `printSlip`, lines 88-212: a window is opened, the template
is evaluated and written to it. A throw inside the template leaves the
window opened and nothing written. -/
def printSlip (qrImg userData : JsVal) (now : String) : List Effect :=
  match printContent qrImg userData now with
  | .ok doc => [Effect.openWindow, Effect.write doc]
  | .error _ => [Effect.openWindow]

/-- What the result card shows (lines 268-287): the `src` attribute of the
image, when it has one, and the texts of the three rows. -/
structure Card where
  src : Option String
  name : String
  mobile : String
  role : String

/-- The result card of lines 268-296: rendered only under the guard
`qrImage && user`, with `qrImage` as the `src` of the image and `user.name`,
`user.mobile` and `user.role` as the children of its three rows. The render
throws when the `src` cannot be converted or a row is given an object. -/
def resultCard (v : View) : Except JsErr (Option Card) :=
  if panelShown v then
    match attrText v.qrImage with
    | .error e => .error e
    | .ok src =>
      match getProp v.user "name" with
      | .error e => .error e
      | .ok nameVal =>
        match childText nameVal with
        | .error e => .error e
        | .ok name =>
          match getProp v.user "mobile" with
          | .error e => .error e
          | .ok mobileVal =>
            match childText mobileVal with
            | .error e => .error e
            | .ok mobile =>
              match getProp v.user "role" with
              | .error e => .error e
              | .ok roleVal =>
                match childText roleVal with
                | .error e => .error e
                | .ok role =>
                  .ok (some { src := src, name := name, mobile := mobile, role := role })
  else .ok none

/-- What a falsy guard leaves among the children at line 268: the value of
`qrImage && user && (...)` is then `qrImage` or `user` itself, of which React
shows nothing unless it is the number zero. -/
def guardLeftover (v : View) : String :=
  let left : JsVal := if v.qrImage.truthy then v.user else v.qrImage
  match left with
  | num n => if n = 0 then "0" else ""
  | _ => ""

/-- What the mounted view shows (lines 214-301), as far as it depends on the
state: the text of the status bar, the `disabled` attribute of the scan
button, what a falsy guard leaves, and the result card. -/
structure Screen where
  status : String
  scanDisabled : Bool
  leftover : String
  card : Option Card

/-- The render of the component (lines 214-301): `{status}` is a child of
the status bar, the result card follows its guard. When it throws, React
removes the view. -/
def render (v : View) : Except JsErr Screen :=
  match childText v.status with
  | .error e => .error e
  | .ok status =>
    match resultCard v with
    | .error e => .error e
    | .ok card =>
      .ok { status := status, scanDisabled := scanDisabled v,
            leftover := guardLeftover v, card := card }

/-! ## The component in its environment -/

/-- The view together with what is pending around it: `toBlob` callbacks not
yet run, requests sent and not yet settled, print timers not yet fired, and
the effects performed so far (oldest first). -/
structure Sys where
  view : View
  capturing : Nat
  inflight : Nat
  timers : List (JsVal × JsVal)
  log : List Effect

/-- The freshly mounted component. -/
def Sys.init : Sys :=
  { view := View.init, capturing := 0, inflight := 0, timers := [], log := [] }

/-- What can happen to the mounted component. -/
inductive Event where
  /-- The video element fires `onloadedmetadata` (line 28). -/
  | loadedMetadata : Event
  /-- The promise of `getUserMedia` rejects (line 31). -/
  | cameraDenied : Event
  /-- A click on the scan button (line 250). -/
  | clickScan : Event
  /-- The callback of `toBlob` runs, with a blob or with `null` (line 56). -/
  | blob (ok : Bool) : Event
  /-- The promise of `axios.post` settles (line 61). -/
  | settled (o : Outcome) : Event
  /-- The oldest 500 ms timer fires while the clock reads `now` (line 74). -/
  | timerFired (now : String) : Event
  /-- A click on the reprint button while the clock reads `now` (line 290). -/
  | clickPrintAgain (now : String) : Event

/-- The pairs of arguments of the print timers among some effects. -/
def timersOf : List Effect → List (JsVal × JsVal)
  | [] => []
  | Effect.printTimer q u :: rest => (q, u) :: timersOf rest
  | _ :: rest => timersOf rest

/-- One event. A disabled button dispatches no click and the reprint button
exists only while the view is rendered with its result card; the callback of
`toBlob` and the continuation of the request run only when one is pending.
With a `null` blob, `formData.append` throws before the `try` block and
nothing else of the callback runs. A view whose render has thrown has no
scan button either; the scan click is let through there, which only adds
behaviours. -/
def step (s : Sys) : Event → Sys
  | .loadedMetadata => { s with view := { s.view with cameraReady := true } }
  | .cameraDenied => { s with view := { s.view with status := cameraDeniedMsg } }
  | .clickScan =>
    if scanDisabled s.view then s
    else
      { s with view := (scanFace s.view).1, capturing := s.capturing + 1,
               log := s.log ++ (scanFace s.view).2 }
  | .blob ok =>
    if s.capturing = 0 then s
    else if ok then
      { s with capturing := s.capturing - 1, inflight := s.inflight + 1,
               log := s.log ++ [Effect.post] }
    else { s with capturing := s.capturing - 1 }
  | .settled o =>
    if s.inflight = 0 then s
    else
      { s with view := (settle s.view o).1, inflight := s.inflight - 1,
               timers := s.timers ++ timersOf (settle s.view o).2,
               log := s.log ++ (settle s.view o).2 }
  | .timerFired now =>
    match s.timers with
    | [] => s
    | (q, u) :: rest => { s with timers := rest, log := s.log ++ printSlip q u now }
  | .clickPrintAgain now =>
    match render s.view with
    | .error _ => s
    | .ok screen =>
      if screen.card.isSome then
        { s with log := s.log ++ printSlip s.view.qrImage s.view.user now }
      else s

/-- A sequence of events, oldest first. -/
def run (s : Sys) (evs : List Event) : Sys := evs.foldl step s

/-- An outcome that does not take the success branch of line 65: a
rejection, a body whose `success` is falsy, or a body on which a property
read of the success branch throws. -/
def Outcome.failure : Outcome → Bool
  | .rejected _ => true
  | .resolved data =>
    match getProp data "success" with
    | .error _ => true
    | .ok flag => !flag.truthy || (optProp data "data").nullish

/-- Whether an event is the settling of a request. -/
def Event.isSettled : Event → Bool
  | .settled _ => true
  | _ => false

/-- The number of requests submitted among some effects. -/
def postsOf : List Effect → Nat
  | [] => 0
  | Effect.post :: rest => postsOf rest + 1
  | _ :: rest => postsOf rest

/-! ## Responses used as instances -/

/-- The identity record of scenario B. -/
def asha : JsVal :=
  obj [("name", str "Asha"), ("mobile", str "9876543210"), ("role", str "Staff")]

/-- A token image as a data URI. -/
def sampleToken : JsVal := str "data:image/png;base64,iVBORw0KGgo="

/-- The body of scenario B: success with a token image and the identity
Asha / 9876543210 / Staff. -/
def ashaBody : JsVal :=
  obj [("success", bool true),
       ("data", obj [("qr_image", sampleToken), ("user", asha)])]

/-- A body that signals success and carries the identity record but no
token image. -/
def noTokenBody : JsVal :=
  obj [("success", bool true), ("data", obj [("user", asha)])]

/-- A body that signals success and carries the token image but no identity
record. -/
def noUserBody : JsVal :=
  obj [("success", bool true), ("data", obj [("qr_image", sampleToken)])]

/-- A body that signals success with an empty token image. -/
def emptyTokenBody : JsVal :=
  obj [("success", bool true), ("data", obj [("qr_image", str ""), ("user", asha)])]

/-- A body with the failure flag that carries a token image and an identity
record all the same. -/
def flaggedBody : JsVal :=
  obj [("success", bool false), ("data", obj [("qr_image", sampleToken), ("user", asha)])]

/-- A body with the failure flag whose message is an object. -/
def objectMessageBody : JsVal :=
  obj [("success", bool false), ("message", obj [("code", num 1)])]

/-- An identity record whose name has an own `toString`. -/
def oddUser : JsVal :=
  obj [("name", obj [("toString", num 1)]), ("mobile", str "9876543210"),
       ("role", str "Staff")]

/-- A body that signals success and has no `data` at all. -/
def noDataBody : JsVal := obj [("success", bool true)]

/-- The body of scenario C: the failure flag with a message. -/
def unrecognizedBody : JsVal :=
  obj [("success", bool false), ("message", str "Unrecognized face")]

/-- A body with the failure flag and no message. -/
def bareFailureBody : JsVal := obj [("success", bool false)]

/-- The error of scenario D: a network error, without a `response`. -/
def networkError : JsErr :=
  [("name", str "AxiosError"), ("message", str "Network Error"),
   ("code", str "ERR_NETWORK")]

/-- The error axios rejects with on a non-success HTTP status whose body has
no message. -/
def serverError : JsErr :=
  [("name", str "AxiosError"), ("message", str "Request failed with status code 500"),
   ("response", obj [("status", num 500), ("data", obj [("success", bool false)])])]

/-- The error axios rejects with on a non-success HTTP status whose body
carries a message. -/
def unrecognizedError : JsErr :=
  [("name", str "AxiosError"), ("message", str "Request failed with status code 404"),
   ("response", obj [("status", num 404),
                     ("data", obj [("success", bool false),
                                   ("message", str "Unrecognized face")])])]

/-- Two clock readings, as `toLocaleString` prints them, seven seconds apart. -/
def noon : String := "1/5/2025, 12:00:00 PM"

/-- The later of the two clock readings. -/
def noonPlus7 : String := "1/5/2025, 12:00:07 PM"

/-- A name that is markup. -/
def markupName : String := "<b>Asha</b><script>alert(1)</script>"

/-- A recognition failure whose response carries the message `m`: a resolved
body with a falsy `success` and `message = m`, or a rejection whose
`response.data.message` is `m`. -/
def carriesMessage (o : Outcome) (m : String) : Prop :=
  (∃ data flag, o = .resolved data ∧ getProp data "success" = .ok flag ∧
      flag.truthy = false ∧ getProp data "message" = .ok (str m)) ∨
  (∃ err, o = .rejected err ∧
      optProp (optProp (lookupProp err "response") "data") "message" = str m)

/-- An outcome that puts only primitive values on display: the message of the
response and, in a resolved body, the token image and the name, mobile and
role of the identity record are strings, numbers, booleans, `null` or
absent. -/
def Outcome.displayable : Outcome → Bool
  | .rejected err =>
    (optProp (optProp (lookupProp err "response") "data") "message").primitive
  | .resolved body =>
    (optProp body "message").primitive &&
    (optProp (optProp body "data") "qr_image").primitive &&
    (optProp (optProp (optProp body "data") "user") "name").primitive &&
    (optProp (optProp (optProp body "data") "user") "mobile").primitive &&
    (optProp (optProp (optProp body "data") "user") "role").primitive

/-- What holds of every state the mounted component can reach: at most one
capture or request is pending, one is pending only while `loading` is set,
and `loading` is set only once the camera has reported readiness and only
while no result is stored. -/
def Sys.Inv (s : Sys) : Prop :=
  s.capturing + s.inflight ≤ 1 ∧
  (0 < s.capturing + s.inflight → s.view.loading = true) ∧
  (s.view.loading = true → s.view.cameraReady = true) ∧
  (s.view.loading = true → s.view.qrImage = null ∧ s.view.user = null)

/-! ## Lemmas on values and on the continuation -/

theorem getProp_ok_of_not_nullish (v : JsVal) (key : String) (h : v.nullish = false) :
    getProp v key = .ok (optProp v key) := by
  cases v <;> simp_all [getProp, optProp, JsVal.nullish]

theorem not_nullish_of_getProp_ok {v x : JsVal} {key : String}
    (h : getProp v key = .ok x) : v.nullish = false := by
  cases v <;> simp_all [getProp, JsVal.nullish]

theorem optProp_of_getProp_ok {v x : JsVal} {key : String}
    (h : getProp v key = .ok x) : optProp v key = x := by
  cases v <;> simp_all [getProp, optProp]

theorem not_nullish_of_truthy {v : JsVal} (h : v.truthy = true) : v.nullish = false := by
  cases v <;> simp_all [JsVal.truthy, JsVal.nullish]

theorem getProp_error_iff_nullish (v : JsVal) (key : String) :
    (∃ e, getProp v key = .error e) ↔ v.nullish = true := by
  cases v <;> simp [getProp, JsVal.nullish]

/-- The engine's `TypeError` carries no `response`, so the `catch` clause
falls back to its literal. -/
theorem catchBody_typeError (v : View) (key : String) :
    catchBody v (typeError key) = ({ v with status := notRecognizedMsg }, []) := by
  simp [catchBody, typeError, lookupProp, optProp, JsVal.or, JsVal.truthy]

/-- The `try` body by cases: a `null` or `undefined` body throws at `.success`;
a falsy flag takes the `else` branch; a truthy flag throws at `.qr_image`
when `data` is `null` or `undefined` and takes the success branch
otherwise. -/
theorem tryBody_eq (v : View) (data : JsVal) :
    tryBody v data =
      if data.nullish then .error (typeError "success")
      else if (optProp data "success").truthy then
        if (optProp data "data").nullish then .error (typeError "qr_image")
        else
          .ok ({ v with qrImage := optProp (optProp data "data") "qr_image",
                        user := optProp (optProp data "data") "user",
                        status := successMsg },
               [Effect.printTimer (optProp (optProp data "data") "qr_image")
                  (optProp (optProp data "data") "user")])
      else .ok ({ v with status := JsVal.or (optProp data "message") failedMsg }, []) := by
  cases data with
  | obj fields =>
    simp only [tryBody, getProp, optProp, JsVal.nullish]
    split
    · generalize lookupProp fields "data" = d
      cases d <;> simp [JsVal.nullish]
    · simp
  | _ => simp [tryBody, getProp, optProp, JsVal.nullish, JsVal.truthy]

/-- The continuation on a resolved request, by cases. -/
theorem settle_resolved_eq (v : View) (data : JsVal) :
    settle v (.resolved data) =
      if data.nullish then ({ v with status := notRecognizedMsg, loading := false }, [])
      else if (optProp data "success").truthy then
        if (optProp data "data").nullish then
          ({ v with status := notRecognizedMsg, loading := false }, [])
        else
          ({ v with qrImage := optProp (optProp data "data") "qr_image",
                    user := optProp (optProp data "data") "user",
                    status := successMsg, loading := false },
           [Effect.printTimer (optProp (optProp data "data") "qr_image")
              (optProp (optProp data "data") "user")])
      else
        ({ v with status := JsVal.or (optProp data "message") failedMsg, loading := false },
         []) := by
  simp only [settle, tryBody_eq]
  by_cases hn : data.nullish = true
  · simp [hn, catchBody_typeError]
  · by_cases ht : (optProp data "success").truthy = true
    · by_cases hd : (optProp data "data").nullish = true
      · simp [hn, ht, hd, catchBody_typeError]
      · simp [hn, ht, hd]
    · simp [hn, ht]

/-- The continuation on a rejected request. -/
theorem settle_rejected_eq (v : View) (err : JsErr) :
    settle v (.rejected err) =
      ({ v with
          status := JsVal.or (optProp (optProp (lookupProp err "response") "data") "message")
            notRecognizedMsg,
          loading := false }, []) := by
  simp [settle, catchBody]

/-- A failed outcome leaves the stored result alone and schedules nothing. -/
theorem settle_failure (v : View) (o : Outcome) (h : o.failure = true) :
    (settle v o).1.qrImage = v.qrImage ∧ (settle v o).1.user = v.user ∧
      (settle v o).2 = [] := by
  cases o with
  | rejected err => simp [settle_rejected_eq]
  | resolved data =>
    rw [settle_resolved_eq]
    by_cases hn : data.nullish = true
    · simp [hn]
    · have hn' : data.nullish = false := by simpa using hn
      simp only [Outcome.failure, getProp_ok_of_not_nullish data "success" hn'] at h
      simp only [hn', Bool.false_eq_true, if_false]
      by_cases ht : (optProp data "success").truthy = true
      · simp only [ht, Bool.not_true, Bool.false_or] at h
        simp [ht, h]
      · simp [ht]

/-- A primitive child never makes the render throw. -/
theorem childText_of_primitive {v : JsVal} (h : v.primitive = true) :
    ∃ t, childText v = .ok t := by
  cases v <;> simp_all [childText, JsVal.primitive]

/-- A primitive value converts to a string. -/
theorem toJsString_of_primitive {v : JsVal} (h : v.primitive = true) :
    ∃ t, toJsString v = .ok t := by
  cases v with
  | bool b => cases b <;> simp [toJsString]
  | _ => simp_all [toJsString, JsVal.primitive]

/-- A primitive value is a fine `src`. -/
theorem attrText_of_primitive {v : JsVal} (h : v.primitive = true) :
    ∃ t, attrText v = .ok t := by
  cases v <;> simp_all [attrText, toJsString, JsVal.primitive]

mutual
/-- What React renders as a child, a template literal can print. -/
theorem toJsString_of_childText : ∀ (v : JsVal) (t : String),
    childText v = .ok t → ∃ s, toJsString v = .ok s
  | .undefined, _, _ => ⟨_, rfl⟩
  | .null, _, _ => ⟨_, rfl⟩
  | .bool true, _, _ => ⟨_, rfl⟩
  | .bool false, _, _ => ⟨_, rfl⟩
  | .num _, _, _ => ⟨_, rfl⟩
  | .str _, _, _ => ⟨_, rfl⟩
  | .arr elems, t, h => by
    cases hc : childTexts elems with
    | error e => simp [childText, hc] at h
    | ok parts =>
      obtain ⟨ss, hss⟩ := stringsOf_of_childTexts elems parts hc
      exact ⟨",".intercalate ss, by simp [toJsString, hss]⟩
  | .obj _, _, h => by simp [childText] at h
/-- The same for the elements of an array. -/
theorem stringsOf_of_childTexts : ∀ (l : List JsVal) (ts : List String),
    childTexts l = .ok ts → ∃ ss, stringsOf l = .ok ss
  | [], _, _ => ⟨_, rfl⟩
  | x :: rest, ts, h => by
    cases hx : childText x with
    | error e => simp [childTexts, hx] at h
    | ok a =>
      cases hr : childTexts rest with
      | error e => simp [childTexts, hx, hr] at h
      | ok b =>
        obtain ⟨s, hs⟩ := toJsString_of_childText x a hx
        obtain ⟨ss, hss⟩ := stringsOf_of_childTexts rest b hr
        by_cases hn : x.nullish = true
        · exact ⟨"" :: ss, by simp [stringsOf, hn, hss]⟩
        · exact ⟨s :: ss, by simp [stringsOf, hn, hs, hss]⟩
end

/-- A value that is a fine `src` can be printed by a template literal. -/
theorem toJsString_of_attrText {v : JsVal} {t : Option String} (h : attrText v = .ok t) :
    ∃ s, toJsString v = .ok s := by
  cases v with
  | bool b => cases b <;> simp [toJsString]
  | undefined => simp [toJsString]
  | null => simp [toJsString]
  | num n => simp [toJsString]
  | str s => simp [toJsString]
  | arr elems =>
    cases hs : toJsString (arr elems) with
    | ok s => exact ⟨s, rfl⟩
    | error e => simp [attrText, hs] at h
  | obj fields =>
    cases hs : toJsString (obj fields) with
    | ok s => exact ⟨s, rfl⟩
    | error e => simp [attrText, hs] at h

/-! ## The recognition response and the stored result -/

/-- The result card of a view whose token image and identity are truthy and
whose three fields are strings. -/
theorem resultCard_of_strings (w : View) (src : Option String) (n m r : String)
    (hq : w.qrImage.truthy = true) (hu : w.user.truthy = true)
    (hsrc : attrText w.qrImage = .ok src)
    (hn : getProp w.user "name" = .ok (str n)) (hm : getProp w.user "mobile" = .ok (str m))
    (hr : getProp w.user "role" = .ok (str r)) :
    resultCard w = .ok (some { src := src, name := n, mobile := m, role := r }) := by
  simp [resultCard, panelShown, hq, hu, hsrc, hn, hm, hr, childText]

/-- Without a truthy token image and a truthy identity there is no card. -/
theorem resultCard_of_falsy (w : View) (h : w.qrImage.truthy = false ∨ w.user.truthy = false) :
    resultCard w = .ok none := by
  rcases h with h | h <;> simp [resultCard, panelShown, h]

/-- Claim C1, at an input: a body that signals success and carries an empty
token image with Asha's record settles with the success message and stores
both, and the view shows no result card, so no name, mobile or role. -/
theorem empty_token_counterexample :
    (run Sys.init [.loadedMetadata, .clickScan, .blob true,
      .settled (.resolved emptyTokenBody)]).view.qrImage = str "" ∧
    (run Sys.init [.loadedMetadata, .clickScan, .blob true,
      .settled (.resolved emptyTokenBody)]).view.user = asha ∧
    render (run Sys.init [.loadedMetadata, .clickScan, .blob true,
      .settled (.resolved emptyTokenBody)]).view =
      .ok { status := "✅ QR Generated Successfully", scanDisabled := false, leftover := "",
            card := none } := by
  simp [run, step, scanDisabled, View.init, Sys.init, scanFace, settle_resolved_eq,
    emptyTokenBody, optProp, lookupProp, JsVal.nullish, JsVal.truthy, render, resultCard,
    panelShown, guardLeftover, childText, successMsg, asha]

/-- Claim C1, amended. A successful recognition response (the body's `success`
is set and its `data` carries `qr_image = q` and `user = u`) leaves, once the
request has settled, exactly `q` and `u` in the view and the success message in
the status. When `q` and `u` are truthy the result card is rendered and its
rows show the strings `u.name`, `u.mobile`, `u.role` as they are, next to the
image whose `src` is `q`; when `q` or `u` is falsy (an empty token image) no
result card is rendered. -/
theorem settle_success_stores_result (v : View) (data flag d q u : JsVal)
    (hflag : getProp data "success" = .ok flag) (ht : flag.truthy = true)
    (hd : getProp data "data" = .ok d)
    (hq : getProp d "qr_image" = .ok q) (hu : getProp d "user" = .ok u) :
    (settle v (.resolved data)).1.qrImage = q ∧
    (settle v (.resolved data)).1.user = u ∧
    (settle v (.resolved data)).1.status = str "✅ QR Generated Successfully" ∧
    (∀ (src : Option String) (n m r : String), q.truthy = true → u.truthy = true →
      attrText q = .ok src → getProp u "name" = .ok (str n) →
      getProp u "mobile" = .ok (str m) → getProp u "role" = .ok (str r) →
      resultCard (settle v (.resolved data)).1 =
        .ok (some { src := src, name := n, mobile := m, role := r }) ∧
      render (settle v (.resolved data)).1 =
        .ok { status := "✅ QR Generated Successfully", scanDisabled := !v.cameraReady,
              leftover := "",
              card := some { src := src, name := n, mobile := m, role := r } }) ∧
    (∀ qs n m r : String, q = str qs → qs ≠ "" → u.truthy = true →
      getProp u "name" = .ok (str n) → getProp u "mobile" = .ok (str m) →
      getProp u "role" = .ok (str r) →
      resultCard (settle v (.resolved data)).1 =
        .ok (some { src := some qs, name := n, mobile := m, role := r })) ∧
    ((q.truthy = false ∨ u.truthy = false) →
      resultCard (settle v (.resolved data)).1 = .ok none) := by
  have hn := not_nullish_of_getProp_ok hflag
  have hdn := not_nullish_of_getProp_ok hq
  have e1 := optProp_of_getProp_ok hflag
  have e2 := optProp_of_getProp_ok hd
  have e3 := optProp_of_getProp_ok hq
  have e4 := optProp_of_getProp_ok hu
  have hs : settle v (.resolved data) =
      ({ v with qrImage := q, user := u, status := str "✅ QR Generated Successfully",
                loading := false }, [Effect.printTimer q u]) := by
    rw [settle_resolved_eq]
    simp only [hn, e1, ht, e2, hdn, e3, e4, Bool.false_eq_true, if_false, if_true, successMsg]
  rw [hs]
  refine ⟨rfl, rfl, rfl, ?_, ?_, ?_⟩
  · intro src n m r hqt hut hsrc h1 h2 h3
    have hc := resultCard_of_strings
      { v with qrImage := q, user := u, status := str "✅ QR Generated Successfully",
               loading := false } src n m r hqt hut hsrc h1 h2 h3
    refine ⟨hc, ?_⟩
    simp only [render, hc, childText]
    simp [scanDisabled, guardLeftover, hqt, hut]
    cases u <;> simp_all [JsVal.truthy]
  · intro qs n m r hqs hne hut h1 h2 h3
    subst hqs
    exact resultCard_of_strings _ (some qs) n m r (by simp [JsVal.truthy, hne]) hut
      (by simp [attrText, toJsString]) h1 h2 h3
  · intro h
    exact resultCard_of_falsy _ h

/-- Scenario B as an instance of the amended C1: the card shows Asha,
9876543210, Staff. -/
theorem settle_success_stores_result_witness :
    (settle View.init (.resolved ashaBody)).1.status = str "✅ QR Generated Successfully" ∧
    resultCard (settle View.init (.resolved ashaBody)).1 =
      .ok (some { src := some "data:image/png;base64,iVBORw0KGgo=", name := "Asha",
                  mobile := "9876543210", role := "Staff" }) := by
  have h := settle_success_stores_result View.init ashaBody (bool true)
    (obj [("qr_image", sampleToken), ("user", asha)]) sampleToken asha
    (by simp [ashaBody, getProp, lookupProp]) (by simp [JsVal.truthy])
    (by simp [ashaBody, getProp, lookupProp]) (by simp [getProp, lookupProp])
    (by simp [getProp, lookupProp])
  exact ⟨h.2.2.1, h.2.2.2.2.1 "data:image/png;base64,iVBORw0KGgo=" "Asha" "9876543210" "Staff"
    rfl (by decide) (by simp [asha, JsVal.truthy]) (by simp [asha, getProp, lookupProp])
    (by simp [asha, getProp, lookupProp]) (by simp [asha, getProp, lookupProp])⟩

/-- Claim C4, at an input: a body that signals success and carries the identity
record but no token image settles on the success branch: the status is the
success message, the identity is stored and the slip render is scheduled. -/
theorem success_without_token_counterexample :
    (settle (scanFace View.init).1 (.resolved noTokenBody)).1.status =
      str "✅ QR Generated Successfully" ∧
    (settle (scanFace View.init).1 (.resolved noTokenBody)).1.user = asha ∧
    (settle (scanFace View.init).1 (.resolved noTokenBody)).2 =
      [Effect.printTimer undefined asha] := by
  simp [settle_resolved_eq, noTokenBody, optProp, lookupProp, JsVal.nullish, JsVal.truthy,
    asha, successMsg]

/-- Claim C4, amended. A response settles as a success exactly when its body
has a truthy `success` and a `data` that is neither `null` nor `undefined`;
what is inside `data` is not checked: the status is the success message,
`qrImage` and `user` become `data.qr_image` and `data.user` as they are
(`undefined` when absent) and the slip render is scheduled with them. With a
truthy `success` and no such `data` the read throws: the status is the generic
fallback, the stored result is untouched and nothing is scheduled. With a
falsy `success` the response is a failure whatever else it carries, and so is
a body that is `null` or `undefined`. -/
theorem success_branch_needs_flag_and_data (v : View) (body : JsVal) :
    (body.nullish = false → (optProp body "success").truthy = true →
      (optProp body "data").nullish = false →
      settle v (.resolved body) =
        ({ v with qrImage := optProp (optProp body "data") "qr_image",
                  user := optProp (optProp body "data") "user",
                  status := str "✅ QR Generated Successfully", loading := false },
         [Effect.printTimer (optProp (optProp body "data") "qr_image")
            (optProp (optProp body "data") "user")])) ∧
    (body.nullish = false → (optProp body "success").truthy = true →
      (optProp body "data").nullish = true →
      settle v (.resolved body) =
        ({ v with status := str "❌ Face not recognized", loading := false }, [])) ∧
    (body.nullish = false → (optProp body "success").truthy = false →
      settle v (.resolved body) =
        ({ v with status := JsVal.or (optProp body "message") (str "❌ Failed to generate QR"),
                  loading := false }, [])) ∧
    (body.nullish = true →
      settle v (.resolved body) =
        ({ v with status := str "❌ Face not recognized", loading := false }, [])) ∧
    ((settle v (.resolved body)).2 ≠ [] ↔
      (body.nullish = false ∧ (optProp body "success").truthy = true ∧
        (optProp body "data").nullish = false)) := by
  rw [settle_resolved_eq]
  refine ⟨?_, ?_, ?_, ?_, ?_⟩
  · intro h1 h2 h3
    simp [h1, h2, h3, successMsg]
  · intro h1 h2 h3
    simp [h1, h2, h3, notRecognizedMsg]
  · intro h1 h2
    simp [h1, h2, failedMsg]
  · intro h1
    simp [h1, notRecognizedMsg]
  · by_cases h1 : body.nullish = true
    · simp [h1]
    · by_cases h2 : (optProp body "success").truthy = true
      · by_cases h3 : (optProp body "data").nullish = true
        · simp [h1, h2, h3]
        · simp [h1, h2, h3]
      · simp [h1, h2]

/-- The amended C4 at inputs: success without `data` is a failure, success with
a `data` lacking the token image is a success, and the failure flag wins over
a `data` that carries both. -/
theorem success_branch_needs_flag_and_data_witness :
    settle View.init (.resolved noDataBody) =
      ({ View.init with status := str "❌ Face not recognized", loading := false }, []) ∧
    settle View.init (.resolved noTokenBody) =
      ({ View.init with qrImage := undefined, user := asha,
                        status := str "✅ QR Generated Successfully", loading := false },
       [Effect.printTimer undefined asha]) ∧
    settle View.init (.resolved flaggedBody) =
      ({ View.init with status := str "❌ Failed to generate QR", loading := false }, []) := by
  refine ⟨?_, ?_, ?_⟩
  · exact (success_branch_needs_flag_and_data View.init noDataBody).2.1 rfl
      (by simp [noDataBody, optProp, lookupProp, JsVal.truthy])
      (by simp [noDataBody, optProp, lookupProp, JsVal.nullish])
  · have h := (success_branch_needs_flag_and_data View.init noTokenBody).1 rfl
      (by simp [noTokenBody, optProp, lookupProp, JsVal.truthy])
      (by simp [noTokenBody, optProp, lookupProp, JsVal.nullish])
    simpa [noTokenBody, optProp, lookupProp] using h
  · have h := (success_branch_needs_flag_and_data View.init flaggedBody).2.2.1 rfl
      (by simp [flaggedBody, optProp, lookupProp, JsVal.truthy])
    simpa [flaggedBody, optProp, lookupProp, JsVal.or, JsVal.truthy] using h

/-! ## Failure messages -/

/-- Claim C5. A recognition failure whose response carries a non-empty message
`m` sets the status to exactly `m` and leaves the stored result alone; settling
the view of an accepted scan, `qrImage` and `user` are `null` and no result card
is rendered. -/
theorem failure_message_shown (v : View) (m : String) (o : Outcome) (hm : m ≠ "")
    (h : carriesMessage o m) :
    (settle v o).1.status = str m ∧
    (settle v o).1.qrImage = v.qrImage ∧ (settle v o).1.user = v.user ∧
    (settle (scanFace v).1 o).1.status = str m ∧
    (settle (scanFace v).1 o).1.qrImage = null ∧
    (settle (scanFace v).1 o).1.user = null ∧
    resultCard (settle (scanFace v).1 o).1 = .ok none := by
  have key : ∀ w : View, (settle w o).1.status = str m ∧
      (settle w o).1.qrImage = w.qrImage ∧ (settle w o).1.user = w.user := by
    intro w
    have hmt : (str m).truthy = true := by simp [JsVal.truthy, hm]
    rcases h with ⟨data, flag, rfl, hflag, hf, hmsg⟩ | ⟨err, rfl, hmsg⟩
    · have hn := not_nullish_of_getProp_ok hflag
      have e1 := optProp_of_getProp_ok hflag
      have e2 := optProp_of_getProp_ok hmsg
      rw [settle_resolved_eq]
      simp only [hn, e1, hf, e2, Bool.false_eq_true, if_false]
      simp [JsVal.or, hmt]
    · rw [settle_rejected_eq]
      simp [hmsg, JsVal.or, hmt]
  obtain ⟨h1, h2, h3⟩ := key v
  obtain ⟨k1, k2, k3⟩ := key (scanFace v).1
  have k2' : (settle (scanFace v).1 o).1.qrImage = null := by rw [k2]; rfl
  have k3' : (settle (scanFace v).1 o).1.user = null := by rw [k3]; rfl
  refine ⟨h1, h2, h3, k1, k2', k3', ?_⟩
  simp [resultCard, panelShown, k2', JsVal.truthy]

/-- Scenario C as an instance of C5: the failure flag with the message
"Unrecognized face". -/
theorem failure_message_shown_witness :
    (settle (scanFace View.init).1 (.resolved unrecognizedBody)).1.status =
      str "Unrecognized face" ∧
    resultCard (settle (scanFace View.init).1 (.resolved unrecognizedBody)).1 = .ok none ∧
    (settle (scanFace View.init).1 (.rejected unrecognizedError)).1.status =
      str "Unrecognized face" := by
  have h := failure_message_shown View.init "Unrecognized face" (.resolved unrecognizedBody)
    (by decide)
    (Or.inl ⟨unrecognizedBody, bool false, rfl, by simp [unrecognizedBody, getProp, lookupProp],
      by simp [JsVal.truthy], by simp [unrecognizedBody, getProp, lookupProp]⟩)
  have h' := failure_message_shown View.init "Unrecognized face" (.rejected unrecognizedError)
    (by decide)
    (Or.inr ⟨unrecognizedError, rfl, by simp [unrecognizedError, lookupProp, optProp]⟩)
  exact ⟨h.2.2.2.1, h.2.2.2.2.2.2, h'.2.2.2.1⟩

/-- Claim C6, at an input: a resolved body with the failure flag and no message
gets the fallback of the `else` branch, which is not the fallback of the `catch`
clause. -/
theorem bare_failure_flag_counterexample :
    (settle (scanFace View.init).1 (.resolved bareFailureBody)).1.status =
      str "❌ Failed to generate QR" ∧
    (settle (scanFace View.init).1 (.resolved bareFailureBody)).1.status ≠
      str "❌ Face not recognized" := by
  have h : (settle (scanFace View.init).1 (.resolved bareFailureBody)).1.status =
      str "❌ Failed to generate QR" := by
    simp [settle_resolved_eq, bareFailureBody, optProp, lookupProp, JsVal.nullish,
      JsVal.truthy, JsVal.or, failedMsg]
  refine ⟨h, ?_⟩
  rw [h]
  intro hc
  injection hc with hs
  exact absurd hs (by decide)

/-- Claim C6, amended. There are two fallbacks. A request that rejects (a
non-success HTTP status, a network error) with no truthy
`response.data.message`, and a resolved body on which a property read throws,
get "❌ Face not recognized"; a resolved body with a falsy `success` and no
truthy `message` gets "❌ Failed to generate QR". -/
theorem fallback_messages (v : View) :
    (∀ err : JsErr,
      (optProp (optProp (lookupProp err "response") "data") "message").truthy = false →
      (settle v (.rejected err)).1.status = str "❌ Face not recognized") ∧
    (∀ data e, tryBody v data = .error e →
      (settle v (.resolved data)).1.status = str "❌ Face not recognized") ∧
    (∀ data flag m, getProp data "success" = .ok flag → flag.truthy = false →
      getProp data "message" = .ok m → m.truthy = false →
      (settle v (.resolved data)).1.status = str "❌ Failed to generate QR") := by
  refine ⟨?_, ?_, ?_⟩
  · intro err h
    rw [settle_rejected_eq]
    simp [JsVal.or, h, notRecognizedMsg]
  · intro data e h
    rw [tryBody_eq] at h
    rw [settle_resolved_eq]
    by_cases hn : data.nullish = true
    · simp [hn, notRecognizedMsg]
    · by_cases ht : (optProp data "success").truthy = true
      · by_cases hd : (optProp data "data").nullish = true
        · simp [hn, ht, hd, notRecognizedMsg]
        · simp [hn, ht, hd] at h
      · simp [hn, ht] at h
  · intro data flag m hflag hf hmsg hmf
    have hn := not_nullish_of_getProp_ok hflag
    have e1 := optProp_of_getProp_ok hflag
    have e2 := optProp_of_getProp_ok hmsg
    rw [settle_resolved_eq]
    simp only [hn, e1, hf, e2, Bool.false_eq_true, if_false]
    simp [JsVal.or, hmf, failedMsg]

/-- The amended C6 at inputs: a network error without a response, a 500 without
a message, a success flag without `data`, and a bare failure flag. -/
theorem fallback_messages_witness :
    (settle View.init (.rejected networkError)).1.status = str "❌ Face not recognized" ∧
    (settle View.init (.rejected serverError)).1.status = str "❌ Face not recognized" ∧
    (settle View.init (.resolved noDataBody)).1.status = str "❌ Face not recognized" ∧
    (settle View.init (.resolved bareFailureBody)).1.status =
      str "❌ Failed to generate QR" := by
  have h := fallback_messages View.init
  refine ⟨h.1 networkError ?_, h.1 serverError ?_, h.2.1 noDataBody (typeError "qr_image") ?_,
    h.2.2 bareFailureBody (bool false) undefined ?_ ?_ ?_ ?_⟩
  · simp [networkError, lookupProp, optProp, JsVal.truthy]
  · simp [serverError, lookupProp, optProp, JsVal.truthy]
  · simp [tryBody, noDataBody, getProp, lookupProp, JsVal.truthy]
  · simp [bareFailureBody, getProp, lookupProp]
  · simp [JsVal.truthy]
  · simp [bareFailureBody, getProp, lookupProp]
  · simp [JsVal.truthy]

/-! ## The scan trigger and the pending request -/

theorem run_nil (s : Sys) : run s [] = s := rfl

theorem run_cons (s : Sys) (e : Event) (evs : List Event) :
    run s (e :: evs) = run (step s e) evs := rfl

theorem settle_loading (v : View) (o : Outcome) : (settle v o).1.loading = false := by
  simp [settle]

theorem settle_cameraReady (v : View) (o : Outcome) :
    (settle v o).1.cameraReady = v.cameraReady := by
  cases o with
  | rejected err => simp [settle_rejected_eq]
  | resolved data =>
    rw [settle_resolved_eq]
    split
    · rfl
    · split
      · split <;> rfl
      · rfl

/-- A click on the reprint button changes the log at most. -/
theorem step_clickPrintAgain (s : Sys) (now : String) :
    step s (.clickPrintAgain now) = s ∨
    step s (.clickPrintAgain now) =
      { s with log := s.log ++ printSlip s.view.qrImage s.view.user now } := by
  simp only [step]
  split
  · exact Or.inl rfl
  · split
    · exact Or.inr rfl
    · exact Or.inl rfl

theorem Sys.Inv_init : Sys.init.Inv := by
  simp [Sys.Inv, Sys.init, View.init]

theorem Sys.Inv_step (s : Sys) (e : Event) (h : s.Inv) : (step s e).Inv := by
  obtain ⟨h1, h2, h3, h4⟩ := h
  cases e with
  | loadedMetadata => exact ⟨h1, h2, fun _ => rfl, h4⟩
  | cameraDenied => exact ⟨h1, h2, h3, h4⟩
  | clickScan =>
    by_cases hd : scanDisabled s.view = true
    · simpa [step, hd] using ⟨h1, h2, h3, h4⟩
    · have hd' : s.view.loading = false ∧ s.view.cameraReady = true := by
        simpa [scanDisabled] using hd
      have hz : s.capturing + s.inflight = 0 := by
        by_contra hne
        have := h2 (Nat.pos_of_ne_zero hne)
        simp [hd'.1] at this
      have hc : s.capturing = 0 := by omega
      have hi : s.inflight = 0 := by omega
      simp [step, hd, Sys.Inv, scanFace, hc, hi, hd'.2]
  | blob ok =>
    by_cases hc : s.capturing = 0
    · simpa [step, hc] using ⟨h1, h2, h3, h4⟩
    · cases ok
      · simp only [step, hc, if_false, Bool.false_eq_true]
        refine ⟨by show s.capturing - 1 + s.inflight ≤ 1; omega, fun _ => h2 (by omega), h3, h4⟩
      · simp only [step, hc, if_false, if_true]
        refine ⟨by show s.capturing - 1 + (s.inflight + 1) ≤ 1; omega,
          fun _ => h2 (by omega), h3, h4⟩
  | settled o =>
    by_cases hi : s.inflight = 0
    · simpa [step, hi] using ⟨h1, h2, h3, h4⟩
    · simp only [step, hi, if_false]
      refine ⟨by show s.capturing + (s.inflight - 1) ≤ 1; omega, ?_, ?_, ?_⟩
      · intro hpos
        have : 0 < s.capturing + (s.inflight - 1) := hpos
        omega
      · intro hl
        have : (settle s.view o).1.loading = true := hl
        simp [settle_loading] at this
      · intro hl
        have : (settle s.view o).1.loading = true := hl
        simp [settle_loading] at this
  | timerFired now =>
    cases ht : s.timers with
    | nil => simpa [step, ht] using ⟨h1, h2, h3, h4⟩
    | cons p rest =>
      obtain ⟨q, u⟩ := p
      simpa [step, ht] using ⟨h1, h2, h3, h4⟩
  | clickPrintAgain now =>
    rcases step_clickPrintAgain s now with hs | hs <;> rw [hs] <;> exact ⟨h1, h2, h3, h4⟩

theorem Sys.Inv_run (evs : List Event) : ∀ s : Sys, s.Inv → (run s evs).Inv := by
  induction evs with
  | nil => intro s h; exact h
  | cons e evs ih => intro s h; exact ih _ (Sys.Inv_step s e h)

/-- Claim C3. While the camera has not reported readiness or a request is in
flight the scan button is disabled: a click leaves the whole state as it
was, effect log included, so nothing is captured or submitted. In every state
reachable from the mounted component at most one request is outstanding (and
at most one capture or request is pending). -/
theorem scan_trigger_disabled_single_request :
    (∀ s : Sys, (s.view.cameraReady = false ∨ s.view.loading = true) →
      scanDisabled s.view = true ∧ step s .clickScan = s) ∧
    (∀ evs : List Event, (run Sys.init evs).inflight ≤ 1 ∧
      (run Sys.init evs).capturing + (run Sys.init evs).inflight ≤ 1) := by
  constructor
  · intro s h
    have hd : scanDisabled s.view = true := by
      rcases h with h | h <;> simp [scanDisabled, h]
    exact ⟨hd, by simp [step, hd]⟩
  · intro evs
    have h := (Sys.Inv_run evs Sys.init Sys.Inv_init).1
    exact ⟨by omega, h⟩

/-- C3 at inputs: a click before the camera is ready changes nothing, and clicks
during a scan leave one request outstanding. -/
theorem scan_trigger_disabled_single_request_witness :
    step Sys.init .clickScan = Sys.init ∧
    (run Sys.init [.loadedMetadata, .clickScan, .clickScan, .blob true, .clickScan]).inflight
      ≤ 1 :=
  ⟨(scan_trigger_disabled_single_request.1 Sys.init (Or.inl rfl)).2,
   (scan_trigger_disabled_single_request.2
      [.loadedMetadata, .clickScan, .clickScan, .blob true, .clickScan]).1⟩

/-- A view whose status, token image and identity fields are primitive
renders, with the scan button as its `disabled` attribute says. -/
theorem render_of_primitive (w : View) (hs : w.status.primitive = true)
    (hq : w.qrImage.primitive = true) (hn : (optProp w.user "name").primitive = true)
    (hm : (optProp w.user "mobile").primitive = true)
    (hr : (optProp w.user "role").primitive = true) :
    ∃ screen, render w = .ok screen ∧ screen.scanDisabled = scanDisabled w := by
  obtain ⟨st, hst⟩ := childText_of_primitive hs
  have hcard : ∃ card, resultCard w = .ok card := by
    by_cases hp : panelShown w = true
    · have hu : w.user.nullish = false := by
        simp only [panelShown, Bool.and_eq_true] at hp
        exact not_nullish_of_truthy hp.2
      obtain ⟨src, hsrc⟩ := attrText_of_primitive hq
      obtain ⟨n, hn'⟩ := childText_of_primitive hn
      obtain ⟨m, hm'⟩ := childText_of_primitive hm
      obtain ⟨r, hr'⟩ := childText_of_primitive hr
      exact ⟨some { src := src, name := n, mobile := m, role := r },
        by simp [resultCard, hp, hsrc, getProp_ok_of_not_nullish _ _ hu, hn', hm', hr']⟩
    · exact ⟨none, by simp [resultCard, hp]⟩
  obtain ⟨card, hc⟩ := hcard
  exact ⟨{ status := st, scanDisabled := scanDisabled w, leftover := guardLeftover w,
           card := card }, by simp [render, hst, hc], rfl⟩

/-- The status a displayable outcome leaves is primitive, and so is what it
stores when it stores something. -/
theorem settle_displayable (v : View) (o : Outcome) (h : o.displayable = true)
    (hq : v.qrImage = null) (hu : v.user = null) :
    (settle v o).1.status.primitive = true ∧ (settle v o).1.qrImage.primitive = true ∧
    (optProp (settle v o).1.user "name").primitive = true ∧
    (optProp (settle v o).1.user "mobile").primitive = true ∧
    (optProp (settle v o).1.user "role").primitive = true := by
  have hor : ∀ a b : JsVal, a.primitive = true → b.primitive = true →
      (JsVal.or a b).primitive = true := by
    intro a b ha hb
    unfold JsVal.or
    split <;> assumption
  cases o with
  | rejected err =>
    rw [settle_rejected_eq]
    simp only [Outcome.displayable] at h
    exact ⟨hor _ _ h rfl, by simp [hq, JsVal.primitive], by simp [hu, optProp, JsVal.primitive],
      by simp [hu, optProp, JsVal.primitive], by simp [hu, optProp, JsVal.primitive]⟩
  | resolved body =>
    rw [settle_resolved_eq]
    simp only [Outcome.displayable, Bool.and_eq_true] at h
    obtain ⟨⟨⟨⟨hmsg, hqi⟩, hname⟩, hmob⟩, hrole⟩ := h
    have hfail : ∀ st : JsVal, st.primitive = true →
        (({ v with status := st, loading := false } : View).status.primitive = true ∧
         ({ v with status := st, loading := false } : View).qrImage.primitive = true ∧
         (optProp ({ v with status := st, loading := false } : View).user "name").primitive
           = true ∧
         (optProp ({ v with status := st, loading := false } : View).user "mobile").primitive
           = true ∧
         (optProp ({ v with status := st, loading := false } : View).user "role").primitive
           = true) := by
      intro st hst
      exact ⟨hst, by simp [hq, JsVal.primitive], by simp [hu, optProp, JsVal.primitive],
        by simp [hu, optProp, JsVal.primitive], by simp [hu, optProp, JsVal.primitive]⟩
    by_cases h1 : body.nullish = true
    · simp only [h1, if_true]
      exact hfail _ rfl
    · by_cases h2 : (optProp body "success").truthy = true
      · by_cases h3 : (optProp body "data").nullish = true
        · simp only [h1, h2, h3, if_true, if_false]
          exact hfail _ rfl
        · simp only [h1, h2, h3, if_true, if_false]
          exact ⟨rfl, hqi, hname, hmob, hrole⟩
      · simp only [h1, h2, if_false]
        exact hfail _ (hor _ _ hmsg rfl)

/-- Claim C7, at an input: a failure flag whose message is an object. The
object becomes the status, the render of the status bar throws and the view is
gone, although `loading` is off again. -/
theorem object_message_counterexample :
    (run Sys.init [.loadedMetadata, .clickScan, .blob true,
      .settled (.resolved objectMessageBody)]).view.loading = false ∧
    (run Sys.init [.loadedMetadata, .clickScan, .blob true,
      .settled (.resolved objectMessageBody)]).view.status = obj [("code", num 1)] ∧
    render (run Sys.init [.loadedMetadata, .clickScan, .blob true,
      .settled (.resolved objectMessageBody)]).view = .error childError := by
  simp [run, step, scanDisabled, View.init, Sys.init, scanFace, settle_resolved_eq,
    objectMessageBody, optProp, lookupProp, JsVal.nullish, JsVal.truthy, JsVal.or, render,
    childText]

/-- Claim C7, amended. Whatever the outcome of the request (success, failure
flag, a thrown error with or without a response body), the continuation ends
with `loading = false` and leaves `cameraReady` as it was, so the `disabled`
flag of the scan button is off again in every reachable state and no outcome
leaves the state in Scanning. The view is rendered back in Ready, with the scan
button enabled, whenever what the outcome puts on display is primitive (the
message, and in a resolved body the token image and the name, mobile and role,
are strings, numbers, booleans, `null` or absent). -/
theorem settle_returns_to_ready :
    (∀ (v : View) (o : Outcome), (settle v o).1.loading = false ∧
      (settle v o).1.cameraReady = v.cameraReady ∧
      scanDisabled (settle v o).1 = !v.cameraReady) ∧
    (∀ (evs : List Event) (o : Outcome), 0 < (run Sys.init evs).inflight →
      (step (run Sys.init evs) (.settled o)).view.loading = false ∧
      scanDisabled (step (run Sys.init evs) (.settled o)).view = false ∧
      (step (run Sys.init evs) (.settled o)).inflight = 0) ∧
    (∀ (evs : List Event) (o : Outcome), 0 < (run Sys.init evs).inflight →
      o.displayable = true →
      ∃ screen, render (step (run Sys.init evs) (.settled o)).view = .ok screen ∧
        screen.scanDisabled = false) := by
  have hstate : ∀ (evs : List Event) (o : Outcome), 0 < (run Sys.init evs).inflight →
      (step (run Sys.init evs) (.settled o)).view = (settle (run Sys.init evs).view o).1 ∧
      (step (run Sys.init evs) (.settled o)).inflight = 0 ∧
      (run Sys.init evs).view.cameraReady = true ∧
      (run Sys.init evs).view.qrImage = null ∧ (run Sys.init evs).view.user = null := by
    intro evs o hpos
    obtain ⟨h1, h2, h3, h4⟩ := Sys.Inv_run evs Sys.init Sys.Inv_init
    have hi : (run Sys.init evs).inflight ≠ 0 := by omega
    have hl := h2 (by omega)
    refine ⟨by simp [step, hi], ?_, h3 hl, (h4 hl).1, (h4 hl).2⟩
    simp only [step, hi, if_false]
    show (run Sys.init evs).inflight - 1 = 0
    omega
  refine ⟨?_, ?_, ?_⟩
  · intro v o
    exact ⟨settle_loading v o, settle_cameraReady v o,
      by simp [scanDisabled, settle_loading, settle_cameraReady]⟩
  · intro evs o hpos
    obtain ⟨hv, hi, hcam, _, _⟩ := hstate evs o hpos
    rw [hv]
    exact ⟨settle_loading _ o,
      by simp [scanDisabled, settle_loading, settle_cameraReady, hcam], hi⟩
  · intro evs o hpos hdis
    obtain ⟨hv, _, hcam, hq, hu⟩ := hstate evs o hpos
    rw [hv]
    obtain ⟨p1, p2, p3, p4, p5⟩ := settle_displayable _ o hdis hq hu
    obtain ⟨screen, hr, hsd⟩ := render_of_primitive _ p1 p2 p3 p4 p5
    exact ⟨screen, hr, by
      rw [hsd]; simp [scanDisabled, settle_loading, settle_cameraReady, hcam]⟩

/-- The amended C7 at inputs: after a network error without a response the
button is enabled again and the view is rendered with the fallback message. -/
theorem settle_returns_to_ready_witness :
    0 < (run Sys.init [.loadedMetadata, .clickScan, .blob true]).inflight ∧
    scanDisabled (step (run Sys.init [.loadedMetadata, .clickScan, .blob true])
      (.settled (.rejected networkError))).view = false ∧
    ∃ screen, render (step (run Sys.init [.loadedMetadata, .clickScan, .blob true])
      (.settled (.rejected networkError))).view = .ok screen ∧ screen.scanDisabled = false :=
  ⟨by decide,
   (settle_returns_to_ready.2.1 [.loadedMetadata, .clickScan, .blob true]
      (.rejected networkError) (by decide)).2.1,
   settle_returns_to_ready.2.2 [.loadedMetadata, .clickScan, .blob true]
      (.rejected networkError) (by decide) (by decide)⟩

/-! ## Clearing the previous result -/

/-- No event other than the settling of a request stores a result. -/
theorem step_keeps_cleared (s : Sys) (e : Event) (he : e.isSettled = false)
    (h : s.view.qrImage = null ∧ s.view.user = null) :
    (step s e).view.qrImage = null ∧ (step s e).view.user = null := by
  cases e with
  | loadedMetadata => exact h
  | cameraDenied => exact h
  | clickScan =>
    by_cases hd : scanDisabled s.view = true
    · simpa [step, hd] using h
    · simp [step, hd, scanFace]
  | blob ok =>
    by_cases hc : s.capturing = 0
    · simpa [step, hc] using h
    · cases ok <;> simpa [step, hc] using h
  | settled o => simp [Event.isSettled] at he
  | timerFired now =>
    cases ht : s.timers with
    | nil => simpa [step, ht] using h
    | cons p rest =>
      obtain ⟨q, u⟩ := p
      simpa [step, ht] using h
  | clickPrintAgain now =>
    rcases step_clickPrintAgain s now with hs | hs <;> rw [hs] <;> exact h

theorem run_keeps_cleared (evs : List Event) :
    ∀ s : Sys, (∀ e ∈ evs, e.isSettled = false) →
      s.view.qrImage = null ∧ s.view.user = null →
      (run s evs).view.qrImage = null ∧ (run s evs).view.user = null := by
  induction evs with
  | nil => intro s _ h; exact h
  | cons e evs ih =>
    intro s he h
    exact ih _ (fun e' h' => he e' (List.mem_cons_of_mem _ h'))
      (step_keeps_cleared s e (he e (List.mem_cons_self _ _)) h)

/-- The view after a settling event: the continuation runs when a request is
outstanding. -/
theorem step_settled_view (t : Sys) (o : Outcome) :
    (step t (.settled o)).view = if t.inflight = 0 then t.view else (settle t.view o).1 := by
  by_cases h : t.inflight = 0 <;> simp [step, h]

/-- Claim C2. Whatever result the view holds, an accepted click on the scan
button sets `qrImage` and `user` to `null` before anything is submitted (the log
gains the capture only); they stay `null` through every sequence of events that
does not settle a request; and when the request then settles as a failure (a
rejection, a failure flag, a throw in the `try` body) they are `null`
afterwards and no result card is rendered. -/
theorem scan_clears_previous_result (s : Sys) (evs : List Event) (o : Outcome)
    (hen : scanDisabled s.view = false) (hev : ∀ e ∈ evs, e.isSettled = false)
    (hf : o.failure = true) :
    (step s .clickScan).view.qrImage = null ∧ (step s .clickScan).view.user = null ∧
    (step s .clickScan).log = s.log ++ [Effect.capture] ∧
    (run (step s .clickScan) evs).view.qrImage = null ∧
    (run (step s .clickScan) evs).view.user = null ∧
    (step (run (step s .clickScan) evs) (.settled o)).view.qrImage = null ∧
    (step (run (step s .clickScan) evs) (.settled o)).view.user = null ∧
    resultCard (step (run (step s .clickScan) evs) (.settled o)).view = .ok none := by
  have h0 : (step s .clickScan).view.qrImage = null ∧ (step s .clickScan).view.user = null := by
    simp [step, hen, scanFace]
  have h1 := run_keeps_cleared evs _ hev h0
  have h2 : (step (run (step s .clickScan) evs) (.settled o)).view.qrImage = null ∧
      (step (run (step s .clickScan) evs) (.settled o)).view.user = null := by
    rw [step_settled_view]
    by_cases hi : (run (step s .clickScan) evs).inflight = 0
    · rw [if_pos hi]; exact h1
    · obtain ⟨f1, f2, _⟩ := settle_failure (run (step s .clickScan) evs).view o hf
      rw [if_neg hi]
      exact ⟨f1.trans h1.1, f2.trans h1.2⟩
  refine ⟨h0.1, h0.2, by simp [step, hen, scanFace], h1.1, h1.2, h2.1, h2.2, ?_⟩
  simp [resultCard, panelShown, h2.1, JsVal.truthy]

/-- C2 at inputs: Asha is on display, a new scan is accepted and fails with a
network error; the result is gone from the click on. -/
theorem scan_clears_previous_result_witness :
    (run Sys.init [.loadedMetadata, .clickScan, .blob true,
      .settled (.resolved ashaBody)]).view.user = asha ∧
    (run Sys.init [.loadedMetadata, .clickScan, .blob true, .settled (.resolved ashaBody),
      .clickScan, .blob true, .settled (.rejected networkError)]).view.user = null := by
  constructor
  · simp [run, step, scanDisabled, View.init, Sys.init, scanFace, settle_resolved_eq, ashaBody,
      optProp, lookupProp, JsVal.nullish, JsVal.truthy]
  · have h := (scan_clears_previous_result
      (run Sys.init [.loadedMetadata, .clickScan, .blob true, .settled (.resolved ashaBody)])
      [.blob true] (.rejected networkError)
      (by simp [run, step, scanDisabled, View.init, Sys.init, scanFace, settle_loading,
            settle_cameraReady])
      (by simp [Event.isSettled]) rfl).2.2.2.2.2.2.1
    exact h

/-! ## Scheduling the slip -/

/-- Claim C8, at an input: a body that signals success and carries the token
image but no identity record is, for the recognition client, a response with a
missing field; the slip render is scheduled for it all the same, with an
`undefined` identity, and when the timer fires the template throws after the
window has been opened. -/
theorem missing_identity_counterexample :
    (settle (scanFace View.init).1 (.resolved noUserBody)).2 =
      [Effect.printTimer sampleToken undefined] ∧
    (run Sys.init [.loadedMetadata, .clickScan, .blob true,
      .settled (.resolved noUserBody)]).timers = [(sampleToken, undefined)] ∧
    (run Sys.init [.loadedMetadata, .clickScan, .blob true,
      .settled (.resolved noUserBody), .timerFired noon]).log =
      [Effect.capture, Effect.post, Effect.printTimer sampleToken undefined,
       Effect.openWindow] := by
  refine ⟨?_, ?_, ?_⟩
  · simp [settle_resolved_eq, noUserBody, optProp, lookupProp, JsVal.nullish, JsVal.truthy]
  · simp [run, step, scanDisabled, View.init, Sys.init, scanFace, settle_resolved_eq,
      noUserBody, optProp, lookupProp, JsVal.nullish, JsVal.truthy, timersOf]
  · simp [run, step, scanDisabled, View.init, Sys.init, scanFace, settle_resolved_eq,
      noUserBody, optProp, lookupProp, JsVal.nullish, JsVal.truthy, timersOf, printSlip,
      printContent, toJsString, getProp, sampleToken]

/-- Claim C8, amended. The slip render is scheduled exactly once when the
request settles on the success branch, that is for a body with a truthy
`success` and a `data` that is neither `null` nor `undefined`, with exactly
`data.qr_image` and `data.user` of that response as its arguments, also when
one of them is absent and so `undefined`. It is not scheduled at all for a
body with a falsy `success`, for a body without `data`, for a `null` or
`undefined` body, or for a request that rejects. -/
theorem print_scheduled_once_iff_success (v : View) :
    (∀ body flag d q u, getProp body "success" = .ok flag → flag.truthy = true →
      getProp body "data" = .ok d → getProp d "qr_image" = .ok q → getProp d "user" = .ok u →
      (settle v (.resolved body)).2 = [Effect.printTimer q u] ∧
      timersOf (settle v (.resolved body)).2 = [(q, u)]) ∧
    (∀ body, body.nullish = false → (optProp body "success").truthy = true →
      (optProp body "data").nullish = false →
      (settle v (.resolved body)).2 =
        [Effect.printTimer (optProp (optProp body "data") "qr_image")
          (optProp (optProp body "data") "user")]) ∧
    (∀ body, (body.nullish = true ∨ (optProp body "success").truthy = false ∨
        (optProp body "data").nullish = true) →
      (settle v (.resolved body)).2 = [] ∧ timersOf (settle v (.resolved body)).2 = []) ∧
    (∀ err, (settle v (.rejected err)).2 = [] ∧ timersOf (settle v (.rejected err)).2 = []) := by
  refine ⟨?_, ?_, ?_, ?_⟩
  · intro body flag d q u hflag ht hd hq hu
    have hn := not_nullish_of_getProp_ok hflag
    have hdn := not_nullish_of_getProp_ok hq
    have e1 := optProp_of_getProp_ok hflag
    have e2 := optProp_of_getProp_ok hd
    have e3 := optProp_of_getProp_ok hq
    have e4 := optProp_of_getProp_ok hu
    rw [settle_resolved_eq]
    simp only [hn, e1, ht, e2, hdn, e3, e4, Bool.false_eq_true, if_false, if_true]
    exact ⟨trivial, rfl⟩
  · intro body h1 h2 h3
    rw [settle_resolved_eq]
    simp [h1, h2, h3]
  · intro body h
    rw [settle_resolved_eq]
    by_cases h1 : body.nullish = true
    · simp [h1, timersOf]
    · by_cases h2 : (optProp body "success").truthy = true
      · have h3 : (optProp body "data").nullish = true := by
          rcases h with h | h | h
          · exact absurd h h1
          · rw [h2] at h; cases h
          · exact h
        simp [h1, h2, h3, timersOf]
      · simp [h1, h2, timersOf]
  · intro err
    rw [settle_rejected_eq]
    exact ⟨rfl, rfl⟩

/-- The amended C8 at inputs: scenario B schedules one render of Asha's slip,
scenario C none. -/
theorem print_scheduled_once_iff_success_witness :
    (settle View.init (.resolved ashaBody)).2 = [Effect.printTimer sampleToken asha] ∧
    (settle View.init (.resolved unrecognizedBody)).2 = [] :=
  ⟨((print_scheduled_once_iff_success View.init).1 ashaBody (bool true)
      (obj [("qr_image", sampleToken), ("user", asha)]) sampleToken asha
      (by simp [ashaBody, getProp, lookupProp]) (by simp [JsVal.truthy])
      (by simp [ashaBody, getProp, lookupProp]) (by simp [getProp, lookupProp])
      (by simp [getProp, lookupProp])).1,
   ((print_scheduled_once_iff_success View.init).2.2.1 unrecognizedBody
      (Or.inr (Or.inl (by simp [unrecognizedBody, optProp, lookupProp, JsVal.truthy])))).1⟩

/-! ## The printable slip -/

theorem unlines_append (a b : List String) : unlines (a ++ b) = unlines a ++ unlines b := by
  induction a with
  | nil => simp [unlines]
  | cons l ls ih => simp [unlines, ih, String.append_assoc]

theorem unlines_singleton (l : String) : unlines [l] = l ++ "\n" := by
  simp [unlines]

theorem append_mid_cancel {a b x y : String} (h : a ++ x ++ b = a ++ y ++ b) : x = y := by
  have h1 := congrArg String.data h
  simp only [String.data_append, List.append_assoc] at h1
  exact String.ext (List.append_cancel_right (List.append_cancel_left h1))

/-- The template, once its four conversions and three reads have gone
through, is a fixed text around the clock reading. -/
theorem printContent_of_parts (q u : JsVal) (qs ns ms rs : String) (nv mv rv : JsVal)
    (hq : toJsString q = .ok qs) (hn : getProp u "name" = .ok nv)
    (hns : toJsString nv = .ok ns) (hm : getProp u "mobile" = .ok mv)
    (hms : toJsString mv = .ok ms) (hr : getProp u "role" = .ok rv)
    (hrs : toJsString rv = .ok rs) :
    ∃ before after : String, ∀ now : String,
      printContent q u now = .ok (before ++ now ++ after) := by
  refine ⟨"\n" ++ unlines
      (slipHeadLines ++
        ["          <img src=\"" ++ qs ++ "\" alt=\"QR Code\" />"] ++
        slipNameLines ++
        ["            <span>" ++ ns ++ "</span>"] ++
        slipMobileLines ++
        ["            <span>" ++ ms ++ "</span>"] ++
        slipRoleLines ++
        ["            <span>" ++ rs ++ "</span>"] ++
        slipStampLines) ++ "          Generated: ",
    "\n" ++ unlines slipFootLines ++ "    ", fun now => ?_⟩
  simp only [printContent, hq, hn, hns, hm, hms, hr, hrs, unlines_append, unlines_singleton,
    String.append_assoc]

/-- A template that yields a document at one clock reading yields, at every
clock reading, the same text around that reading. -/
theorem printContent_split (q u : JsVal) (now : String) (doc : String)
    (h : printContent q u now = .ok doc) :
    ∃ before after : String, ∀ now' : String,
      printContent q u now' = .ok (before ++ now' ++ after) := by
  cases hq : toJsString q with
  | error e => simp [printContent, hq] at h
  | ok qs =>
    cases hn : getProp u "name" with
    | error e => simp [printContent, hq, hn] at h
    | ok nv =>
      cases hns : toJsString nv with
      | error e => simp [printContent, hq, hn, hns] at h
      | ok ns =>
        cases hm : getProp u "mobile" with
        | error e => simp [printContent, hq, hn, hns, hm] at h
        | ok mv =>
          cases hms : toJsString mv with
          | error e => simp [printContent, hq, hn, hns, hm, hms] at h
          | ok ms =>
            cases hr : getProp u "role" with
            | error e => simp [printContent, hq, hn, hns, hm, hms, hr] at h
            | ok rv =>
              cases hrs : toJsString rv with
              | error e => simp [printContent, hq, hn, hns, hm, hms, hr, hrs] at h
              | ok rs => exact printContent_of_parts q u qs ns ms rs nv mv rv hq hn hns hm hms hr hrs

/-- A result that the view shows in its card can be printed. -/
theorem printContent_of_resultCard (w : View) (card : Card)
    (h : resultCard w = .ok (some card)) :
    ∃ before after : String, ∀ now : String,
      printContent w.qrImage w.user now = .ok (before ++ now ++ after) := by
  by_cases hp : panelShown w = true
  · have hu : w.user.nullish = false := by
      simp only [panelShown, Bool.and_eq_true] at hp
      exact not_nullish_of_truthy hp.2
    have g := fun key => getProp_ok_of_not_nullish w.user key hu
    cases hsrc : attrText w.qrImage with
    | error e => simp [resultCard, hp, hsrc] at h
    | ok src =>
      cases hn : childText (optProp w.user "name") with
      | error e => simp [resultCard, hp, hsrc, g, hn] at h
      | ok n =>
        cases hm : childText (optProp w.user "mobile") with
        | error e => simp [resultCard, hp, hsrc, g, hn, hm] at h
        | ok m =>
          cases hr : childText (optProp w.user "role") with
          | error e => simp [resultCard, hp, hsrc, g, hn, hm, hr] at h
          | ok r =>
            obtain ⟨qs, hqs⟩ := toJsString_of_attrText hsrc
            obtain ⟨ns, hns⟩ := toJsString_of_childText _ _ hn
            obtain ⟨ms, hms⟩ := toJsString_of_childText _ _ hm
            obtain ⟨rs, hrs⟩ := toJsString_of_childText _ _ hr
            exact printContent_of_parts _ _ qs ns ms rs _ _ _ hqs (g "name") hns (g "mobile")
              hms (g "role") hrs
  · simp [resultCard, hp] at h

/-- An identity whose name has an own `toString` is neither shown nor printed:
the row of the card is given an object and the template cannot convert it. -/
theorem oddUser_throws :
    resultCard { View.init with qrImage := sampleToken, user := oddUser } = .error childError ∧
    printContent sampleToken oddUser noon = .error convertError := by
  constructor
  · simp [resultCard, panelShown, View.init, sampleToken, oddUser, JsVal.truthy, attrText,
      toJsString, getProp, lookupProp, childText]
  · simp [printContent, sampleToken, oddUser, toJsString, getProp, lookupProp, hasOwn]

/-- Claim C9, at an input: the slip printed automatically at 12:00:00 and the
slip printed again at 12:00:07 for the same result are written as two different
documents. -/
theorem print_again_counterexample :
    ∃ d1 d2 : String,
      (run Sys.init [.loadedMetadata, .clickScan, .blob true, .settled (.resolved ashaBody),
        .timerFired noon, .clickPrintAgain noonPlus7]).log =
        [Effect.capture, Effect.post, Effect.printTimer sampleToken asha,
         Effect.openWindow, Effect.write d1, Effect.openWindow, Effect.write d2] ∧
      d1 ≠ d2 := by
  obtain ⟨before, after, h⟩ := printContent_of_parts sampleToken asha
    "data:image/png;base64,iVBORw0KGgo=" "Asha" "9876543210" "Staff"
    (str "Asha") (str "9876543210") (str "Staff") rfl rfl rfl rfl rfl rfl rfl
  refine ⟨before ++ noon ++ after, before ++ noonPlus7 ++ after, ?_, ?_⟩
  · have h' : ∀ now : String,
        printContent (str "data:image/png;base64,iVBORw0KGgo=")
          (obj [("name", str "Asha"), ("mobile", str "9876543210"), ("role", str "Staff")]) now =
          .ok (before ++ now ++ after) := h
    simp [run, step, scanDisabled, View.init, Sys.init, scanFace, settle_resolved_eq, ashaBody,
      optProp, lookupProp, JsVal.nullish, timersOf, panelShown, printSlip, h', sampleToken,
      asha, JsVal.truthy, render, resultCard, childText, attrText, toJsString, getProp,
      successMsg]
  · intro hc
    exact absurd (append_mid_cancel hc) (by decide)

/-- Claim C9, amended. A click on "print again", which exists while the view is
rendered with its result card, leaves the view and everything pending as they
were and submits nothing: the log gains the opening of a window and the writing
of one document, the template evaluated on the stored result. For one result
the document is a fixed text around the "Generated:" clock reading of the
moment of the render, so two renders of the same result are identical exactly
when they read the same clock value. -/
theorem print_again_same_slip_up_to_timestamp :
    (∀ (s : Sys) (now : String) (screen : Screen), render s.view = .ok screen →
      screen.card.isSome = true →
      (step s (.clickPrintAgain now)).view = s.view ∧
      (step s (.clickPrintAgain now)).capturing = s.capturing ∧
      (step s (.clickPrintAgain now)).inflight = s.inflight ∧
      (step s (.clickPrintAgain now)).timers = s.timers ∧
      ∃ doc, printContent s.view.qrImage s.view.user now = .ok doc ∧
        (step s (.clickPrintAgain now)).log = s.log ++ [Effect.openWindow, Effect.write doc] ∧
        postsOf (step s (.clickPrintAgain now)).log = postsOf s.log) ∧
    (∀ (q u : JsVal) (now doc : String), printContent q u now = .ok doc →
      ∃ before after : String, ∀ now' : String,
        printContent q u now' = .ok (before ++ now' ++ after)) ∧
    (∀ (q u : JsVal) (now1 now2 d1 d2 : String), printContent q u now1 = .ok d1 →
      printContent q u now2 = .ok d2 → (d1 = d2 ↔ now1 = now2)) := by
  refine ⟨?_, printContent_split, ?_⟩
  · intro s now screen hr hcard
    have hrc : ∃ card, resultCard s.view = .ok (some card) := by
      cases hst : childText s.view.status with
      | error e => simp [render, hst] at hr
      | ok st =>
        cases hc : resultCard s.view with
        | error e => simp [render, hst, hc] at hr
        | ok card =>
          simp only [render, hst, hc, Except.ok.injEq] at hr
          subst hr
          cases card with
          | none => simp at hcard
          | some c => exact ⟨c, rfl⟩
    obtain ⟨card, hc⟩ := hrc
    obtain ⟨before, after, h⟩ := printContent_of_resultCard s.view card hc
    have hstep : step s (.clickPrintAgain now) =
        { s with log := s.log ++ printSlip s.view.qrImage s.view.user now } := by
      simp [step, hr, hcard]
    rw [hstep]
    refine ⟨rfl, rfl, rfl, rfl, _, h now, by simp [printSlip, h], ?_⟩
    simp only [printSlip, h]
    generalize s.log = l
    induction l with
    | nil => rfl
    | cons e l ih => cases e <;> simpa [postsOf] using ih
  · intro q u now1 now2 d1 d2 h1 h2
    obtain ⟨before, after, h⟩ := printContent_split q u now1 d1 h1
    rw [h now1] at h1
    rw [h now2] at h2
    injection h1 with h1
    injection h2 with h2
    subst h1 h2
    exact ⟨fun hd => append_mid_cancel hd, fun hn => by rw [hn]⟩

/-- The amended C9 at an input: with Asha on display, printing again changes
nothing in the view and submits nothing. -/
theorem print_again_same_slip_up_to_timestamp_witness :
    render (settle View.init (.resolved ashaBody)).1 =
      .ok { status := "✅ QR Generated Successfully", scanDisabled := true, leftover := "",
            card := some { src := some "data:image/png;base64,iVBORw0KGgo=", name := "Asha",
                           mobile := "9876543210", role := "Staff" } } ∧
    (step { Sys.init with view := (settle View.init (.resolved ashaBody)).1 }
      (.clickPrintAgain noon)).view = (settle View.init (.resolved ashaBody)).1 ∧
    (step { Sys.init with view := (settle View.init (.resolved ashaBody)).1 }
      (.clickPrintAgain noon)).inflight = 0 := by
  have hr : render (settle View.init (.resolved ashaBody)).1 =
      .ok { status := "✅ QR Generated Successfully", scanDisabled := true, leftover := "",
            card := some { src := some "data:image/png;base64,iVBORw0KGgo=", name := "Asha",
                           mobile := "9876543210", role := "Staff" } } := by
    simp [settle_resolved_eq, ashaBody, optProp, lookupProp, JsVal.nullish, JsVal.truthy,
      panelShown, sampleToken, asha, render, resultCard, childText, attrText, toJsString,
      getProp, successMsg, scanDisabled, guardLeftover, View.init]
  have h := print_again_same_slip_up_to_timestamp.1
    { Sys.init with view := (settle View.init (.resolved ashaBody)).1 } noon _ hr rfl
  exact ⟨hr, h.1, h.2.2.1⟩

/-- Claim C10. The document of `printSlip` embeds a token image string `q` and
the string fields of an identity record by plain interpolation: it is a text
`a`, the fragment `<img src="q" alt="QR Code" />`, a text `b`, the NAME label and
on the next line `<span>name</span>`, then likewise the MOBILE and the ROLE
labels with their fields, a text `e`, the clock reading and a text `f`, where
`a` ... `f` are the same for every `q` and every record. -/
theorem printSlip_interpolates_verbatim :
    ∃ a b c d e f : String, ∀ (q : String) (u : JsVal) (n m r now : String),
      getProp u "name" = .ok (str n) → getProp u "mobile" = .ok (str m) →
      getProp u "role" = .ok (str r) →
      printContent (str q) u now =
        .ok (a ++ "<img src=\"" ++ q ++ "\" alt=\"QR Code\" />" ++ b ++
          "<span class=\"label\">NAME:</span>" ++ "\n            " ++
          "<span>" ++ n ++ "</span>" ++ c ++
          "<span class=\"label\">MOBILE:</span>" ++ "\n            " ++
          "<span>" ++ m ++ "</span>" ++ d ++
          "<span class=\"label\">ROLE:</span>" ++ "\n            " ++
          "<span>" ++ r ++ "</span>" ++ e ++ now ++ f) ∧
      printSlip (str q) u now =
        [Effect.openWindow,
         Effect.write (a ++ "<img src=\"" ++ q ++ "\" alt=\"QR Code\" />" ++ b ++
          "<span class=\"label\">NAME:</span>" ++ "\n            " ++
          "<span>" ++ n ++ "</span>" ++ c ++
          "<span class=\"label\">MOBILE:</span>" ++ "\n            " ++
          "<span>" ++ m ++ "</span>" ++ d ++
          "<span class=\"label\">ROLE:</span>" ++ "\n            " ++
          "<span>" ++ r ++ "</span>" ++ e ++ now ++ f)] := by
  refine ⟨"\n" ++ unlines slipHeadLines ++ "          ",
    "\n" ++ "        </div>\n        \n        <div class=\"user-info\">\n          <div>\n" ++
      "            ",
    "\n" ++ "          </div>\n          <div>\n" ++ "            ",
    "\n" ++ "          </div>\n          <div>\n" ++ "            ",
    "\n" ++ unlines slipStampLines ++ "          Generated: ",
    "\n" ++ unlines slipFootLines ++ "    ", ?_⟩
  intro q u n m r now h1 h2 h3
  have hImg : ("          <img src=\"" : String) = "          " ++ "<img src=\"" := by decide
  have hSpan : ("            <span>" : String) = "            " ++ "<span>" := by decide
  have hWs : ("\n            " : String) = "\n" ++ "            " := by decide
  have hN : unlines slipNameLines =
      "        </div>\n        \n        <div class=\"user-info\">\n          <div>\n" ++
        ("            " ++ ("<span class=\"label\">NAME:</span>" ++ "\n")) := by decide
  have hM : unlines slipMobileLines =
      "          </div>\n          <div>\n" ++
        ("            " ++ ("<span class=\"label\">MOBILE:</span>" ++ "\n")) := by decide
  have hR : unlines slipRoleLines =
      "          </div>\n          <div>\n" ++
        ("            " ++ ("<span class=\"label\">ROLE:</span>" ++ "\n")) := by decide
  have hdoc : printContent (str q) u now =
      .ok ("\n" ++ unlines slipHeadLines ++ "          " ++ "<img src=\"" ++ q ++
          "\" alt=\"QR Code\" />" ++
          ("\n" ++
            "        </div>\n        \n        <div class=\"user-info\">\n          <div>\n" ++
            "            ") ++
          "<span class=\"label\">NAME:</span>" ++ "\n            " ++
          "<span>" ++ n ++ "</span>" ++
          ("\n" ++ "          </div>\n          <div>\n" ++ "            ") ++
          "<span class=\"label\">MOBILE:</span>" ++ "\n            " ++
          "<span>" ++ m ++ "</span>" ++
          ("\n" ++ "          </div>\n          <div>\n" ++ "            ") ++
          "<span class=\"label\">ROLE:</span>" ++ "\n            " ++
          "<span>" ++ r ++ "</span>" ++
          ("\n" ++ unlines slipStampLines ++ "          Generated: ") ++ now ++
          ("\n" ++ unlines slipFootLines ++ "    ")) := by
    simp only [printContent, h1, h2, h3, toJsString, unlines_append, unlines_singleton]
    rw [hImg, hSpan, hWs, hN, hM, hR]
    simp only [String.append_assoc]
  exact ⟨hdoc, by simp only [printSlip, hdoc]⟩

/-- C10 at an input: a name that is markup reaches the document as it is. -/
theorem printSlip_interpolates_verbatim_witness :
    ∃ a b c d e f : String,
      printContent sampleToken
        (obj [("name", str markupName), ("mobile", str "9876543210"), ("role", str "Staff")])
        noon =
        .ok (a ++ "<img src=\"" ++ "data:image/png;base64,iVBORw0KGgo=" ++
          "\" alt=\"QR Code\" />" ++ b ++
          "<span class=\"label\">NAME:</span>" ++ "\n            " ++
          "<span>" ++ markupName ++ "</span>" ++ c ++
          "<span class=\"label\">MOBILE:</span>" ++ "\n            " ++
          "<span>" ++ "9876543210" ++ "</span>" ++ d ++
          "<span class=\"label\">ROLE:</span>" ++ "\n            " ++
          "<span>" ++ "Staff" ++ "</span>" ++ e ++ noon ++ f) := by
  obtain ⟨a, b, c, d, e, f, h⟩ := printSlip_interpolates_verbatim
  exact ⟨a, b, c, d, e, f,
    (h "data:image/png;base64,iVBORw0KGgo="
      (obj [("name", str markupName), ("mobile", str "9876543210"), ("role", str "Staff")])
      markupName "9876543210" "Staff" noon
      (by simp [getProp, lookupProp]) (by simp [getProp, lookupProp])
      (by simp [getProp, lookupProp])).1⟩

end FaceScan
